import Mathlib

/-!
Verification of the tool-dispatch / protocol-translation core of the
lark-mcp-telegram-server repository.

The development shallowly embeds the relevant Python source:
* `src/mcp_bridge.py` — the basic MCP bridge (`TOOL_MAP`, `mcp_invoke`,
  the path-template substitution loop, upstream forwarding);
* `src/app/mcp_bridge_enhanced.py` — the enhanced bridge
  (`ENHANCED_TOOL_MAP`, `LarkBitableClient`, `execute_bitable_operation`,
  `invoke_mcp_tool`);
* `src/app.py` — `LarkClient.get_access_token` and the single-record
  Bitable endpoints (`update_bitable_record` and friends).

JSON values are modelled by the inductive `J`; Python exceptions by
`Except PyErr`; outbound HTTP by an explicit environment `Env` that holds
the stream of upstream responses and a log of issued requests.
-/

namespace LarkMcp



/-- Model of a JSON value (the payloads the Python code passes around).
Object fields keep insertion order, as Python dicts do. -/

inductive J where
  | str : String → J
  | num : Int → J
  | bool : Bool → J
  | null : J
  | arr : List J → J
  | obj : List (String × J) → J
deriving Repr

/-- Python `d.get(k)` on a dict: first binding of the key, `none` when the
key is absent or the value is not a dict (the Python code only calls
`.get` on dicts in the paths modelled here). -/

def J.getKey : J → String → Option J
  | .obj kvs, k => kvs.lookup k
  | _, _ => none

/-- The items of a JSON object (Python `d.items()`, in insertion order);
empty for non-objects. -/

def J.items : J → List (String × J)
  | .obj kvs => kvs
  | _ => []

def J.isObj : J → Bool
  | .obj _ => true
  | _ => false

/-- Python truthiness of a JSON value (`if value:`). -/

def J.truthy : J → Bool
  | .str s => !s.isEmpty
  | .num n => n != 0
  | .bool b => b
  | .null => false
  | .arr l => !l.isEmpty
  | .obj l => !l.isEmpty

/-- Python truthiness of an optional value (`if not d.get(k)` style checks):
a missing key behaves like `None`, i.e. falsy. -/

def pyTruthyOpt : Option J → Bool
  | none => false
  | some v => v.truthy

/-- Python `str(value)` as used in f-strings and path substitution.  The
string and integer renderings are faithful; the remaining cases never
reach a claim and carry a schematic rendering. -/

def pyStr : J → String
  | .str s => s
  | .num n => toString n
  | .bool b => if b then "True" else "False"
  | .null => "None"
  | .arr _ => "<list>"
  | .obj _ => "<dict>"

/-- Python rendering of an `Optional` value inside an f-string. -/

def pyShow : Option J → String
  | none => "None"
  | some v => pyStr v

mutual

/-- Python `json.dumps` (string escaping is not modelled; the claims treat
the serialized form opaquely). -/
def jsonDumps : J → String
  | .str s => "\"" ++ s ++ "\""
  | .num n => toString n
  | .bool b => if b then "true" else "false"
  | .null => "null"
  | .arr l => "[" ++ jsonDumpsList l ++ "]"
  | .obj kvs => "\x7b" ++ jsonDumpsObj kvs ++ "\x7d"

def jsonDumpsList : List J → String
  | [] => ""
  | [x] => jsonDumps x
  | x :: y :: xs => jsonDumps x ++ ", " ++ jsonDumpsList (y :: xs)

def jsonDumpsObj : List (String × J) → String
  | [] => ""
  | [(k, v)] => "\"" ++ k ++ "\": " ++ jsonDumps v
  | (k, v) :: y :: xs => "\"" ++ k ++ "\": " ++ jsonDumps v ++ ", " ++ jsonDumpsObj (y :: xs)

end

/-! ### Python `str.replace`

`replaceAll pat repl s` replaces every non-overlapping occurrence of
`pat` in `s` by `repl`, scanning left to right — the semantics of
Python's `str.replace` for a non-empty pattern.  The recursion is driven
by a fuel argument equal to the length of the string so that the
definition is structural and kernel-reducible. -/

def replaceAllGo (pat repl : List Char) : Nat → List Char → List Char
  | _, [] => []
  | 0, s => s
  | fuel + 1, c :: rest =>
    if !pat.isEmpty && pat.isPrefixOf (c :: rest) then
      repl ++ replaceAllGo pat repl fuel (rest.drop (pat.length - 1))
    else
      c :: replaceAllGo pat repl fuel rest

def replaceAll (pat repl s : List Char) : List Char :=
  replaceAllGo pat repl s.length s

/-- The literal pattern `"{" + k + "}"` built by the substitution loop in
`mcp_invoke` (`path.replace(f"{{{k}}}", str(v))`). -/

def phPat (k : List Char) : List Char := '{' :: (k ++ ['}'])

/-- The path-substitution loop of `mcp_invoke` (src/mcp_bridge.py:88-89):
`for k, v in args.items(): path = path.replace("{"+k+"}", str(v))`,
at the level of character lists. -/

def resolveChars (template : List Char) (args : List (List Char × List Char)) : List Char :=
  args.foldl (fun p kv => replaceAll (phPat kv.1) kv.2 p) template

/-- The same loop at the level of the dispatcher: keys come from the
argument dict (insertion order) and each value passes through `str`. -/

def resolvePath (template : String) (args : List (String × J)) : String :=
  ⟨resolveChars template.data (args.map (fun kv => (kv.1.data, (pyStr kv.2).data)))⟩

/-- A string with no brace characters: it contains no `\x7b...\x7d` token
at all. -/

def braceFree (s : List Char) : Bool :=
  s.all (fun c => c ≠ '{' && c ≠ '}')

/-! ### Properties of `replaceAll` -/






/-! ### Well-formed path templates

A path template such as `"/api/v1/bitable/apps/{app_token}/tables"` is the
rendering of a list of segments: brace-free literal pieces interleaved with
`\x7bkey\x7d` placeholders.  Substitution of one `(key, value)` pair acts
segmentwise on such a template. -/

inductive Seg where
  | lit : List Char → Seg
  | ph : List Char → Seg
deriving DecidableEq, Repr

def renderSeg : Seg → List Char
  | .lit l => l
  | .ph k => phPat k

def renderSegs (segs : List Seg) : List Char :=
  (segs.map renderSeg).flatten

/-- The action of one substitution pass on a segment: the matching
placeholder becomes a literal, everything else is untouched. -/

def substSeg (k v : List Char) : Seg → Seg
  | .lit l => .lit l
  | .ph k' => if k' = k then .lit v else .ph k'

/-- Well-formed segment: literal text and placeholder keys are brace-free. -/

def SegWF : Seg → Prop
  | .lit l => braceFree l = true
  | .ph k => braceFree k = true

instance : DecidablePred SegWF := fun s => by
  cases s <;> simp only [SegWF] <;> infer_instance


/-- The full substitution loop applied to one segment. -/

def substAllSeg (args : List (List Char × List Char)) (s : Seg) : Seg :=
  args.foldl (fun s kv => substSeg kv.1 kv.2 s) s






/-! ### src/mcp_bridge.py — the basic MCP bridge -/

def INTERNAL_BASE : String := "https://lark-mcp-telegram-server.onrender.com"

/-- The tool registry of src/mcp_bridge.py:16-54:
tool name ↦ (HTTP method, REST path template). -/

def TOOL_MAP : List (String × String × String) := [
  ("send_lark_message", ("POST", "/api/v1/lark/send")),
  ("create_bitable_app", ("POST", "/api/v1/bitable/apps/create")),
  ("list_bitable_tables", ("GET", "/api/v1/bitable/apps/{app_token}/tables")),
  ("list_departments", ("GET", "/api/v1/contacts/departments")),
  ("list_chats", ("GET", "/api/v1/lark/chats")),
  ("create_hypetask_session", ("POST", "/api/v1/hypetask/session/create")),
  ("get_hypetask_session", ("GET", "/api/v1/hypetask/session/{session_token}")),
  ("log_conversation", ("POST", "/api/v1/hypetask/conversation/log")),
  ("get_conversation_history", ("GET", "/api/v1/hypetask/conversation/history/{session_token}")),
  ("search_bitable_records", ("GET", "/api/v1/bitable/apps/{app_token}/tables/{table_id}/records")),
  ("create_bitable_record", ("POST", "/api/v1/bitable/apps/{app_token}/tables/{table_id}/records/create")),
  ("update_bitable_record", ("PUT", "/api/v1/bitable/apps/{app_token}/tables/{table_id}/records/{record_id}")),
  ("delete_bitable_record", ("DELETE", "/api/v1/bitable/apps/{app_token}/tables/{table_id}/records/{record_id}")),
  ("batch_create_records", ("POST", "/api/v1/bitable/apps/{app_token}/tables/{table_id}/records/batch/create")),
  ("batch_update_records", ("PATCH", "/api/v1/bitable/apps/{app_token}/tables/{table_id}/records/batch/update")),
  ("batch_delete_records", ("DELETE", "/api/v1/bitable/apps/{app_token}/tables/{table_id}/records/batch/delete")),
  ("list_bitable_fields", ("GET", "/api/v1/bitable/apps/{app_token}/tables/{table_id}/fields")),
  ("bitable.v1.appTableRecord.search", ("GET", "/api/v1/bitable/apps/{app_token}/tables/{table_id}/records")),
  ("bitable.v1.appTableRecord.create", ("POST", "/api/v1/bitable/apps/{app_token}/tables/{table_id}/records/create")),
  ("bitable.v1.appTableRecord.update", ("PUT", "/api/v1/bitable/apps/{app_token}/tables/{table_id}/records/{record_id}")),
  ("bitable.v1.appTableRecord.delete", ("DELETE", "/api/v1/bitable/apps/{app_token}/tables/{table_id}/records/{record_id}")),
  ("bitable.v1.appTableRecord.batchCreate", ("POST", "/api/v1/bitable/apps/{app_token}/tables/{table_id}/records/batch/create")),
  ("bitable.v1.appTableRecord.batchUpdate", ("PATCH", "/api/v1/bitable/apps/{app_token}/tables/{table_id}/records/batch/update")),
  ("bitable.v1.appTableRecord.batchDelete", ("DELETE", "/api/v1/bitable/apps/{app_token}/tables/{table_id}/records/batch/delete"))]

/-- An outbound HTTP request as shaped by the bridges (httpx call with
either a JSON body or query parameters). -/

structure HttpReq where
  method : String
  url : String
  jsonBody : Option J := none
  queryParams : Option J := none
deriving Repr

/-- An upstream HTTP response as seen by the basic bridge.  `jsonBody` is
`none` when the body is not parseable JSON (`r.json()` raises). -/

structure UpstreamResp where
  status : Nat
  jsonBody : Option J
  text : String
deriving Repr

/-- Return value of the basic bridge: the JSON-RPC envelope together with
the list of upstream requests it issued, in order. -/

structure BridgeResult where
  response : J
  upstream : List HttpReq
deriving Repr

/-- The `ok` helper of src/mcp_bridge.py:56-57. -/

def okEnv (id_ result : J) : J :=
  J.obj [("jsonrpc", J.str "2.0"), ("id", id_), ("result", result)]

/-- The `err` helper of src/mcp_bridge.py:59-63 (the modelled call sites
never pass `data`). -/

def errEnv (id_ : J) (code : Int) (msg : String) : J :=
  J.obj [("jsonrpc", J.str "2.0"), ("id", id_),
    ("error", J.obj [("code", J.num code), ("message", J.str msg)])]

/-- The `mcp_invoke` endpoint of src/mcp_bridge.py:65-110.  `oracle` gives
the upstream response to each issued request; a non-string tool name is
treated as absent from the registry (as `name not in TOOL_MAP` does for
`None`). -/

def mcp_invoke (body : J) (oracle : HttpReq → UpstreamResp) : BridgeResult :=
  let mid := (body.getKey "id").getD J.null
  let params :=
    match body.getKey "params" with
    | some p => if p.truthy then p else J.obj []
    | none => J.obj []
  match body.getKey "method" with
  | some (J.str "tools/list") =>
    let req : HttpReq := { method := "GET", url := INTERNAL_BASE ++ "/mcp/tools" }
    let r := oracle req
    match r.jsonBody with
    | some data =>
      { response := okEnv mid (J.obj [("tools", (data.getKey "tools").getD (J.arr []))]),
        upstream := [req] }
    | none =>
      { response := errEnv mid (-32000) ("Upstream tools error: " ++ r.text.take 200),
        upstream := [req] }
  | some (J.str "tools/call") =>
    let nameOpt := params.getKey "name"
    let args := (params.getKey "arguments").getD (J.obj [])
    let entry : Option (String × String × String) :=
      match nameOpt with
      | some (J.str s) => TOOL_MAP.find? (fun e => e.1 == s)
      | _ => none
    match entry with
    | none =>
      { response := errEnv mid (-32601) ("Tool not found: " ++ pyShow nameOpt),
        upstream := [] }
    | some (_, m, pathT) =>
      let url := INTERNAL_BASE ++ resolvePath pathT args.items
      let send (req : HttpReq) : BridgeResult :=
        let r := oracle req
        let data :=
          match r.jsonBody with
          | some d => d
          | none => J.obj [("status_code", J.num r.status), ("text", J.str (r.text.take 500))]
        { response := okEnv mid data, upstream := [req] }
      if m = "POST" then send { method := m, url := url, jsonBody := some args }
      else if m = "GET" then send { method := m, url := url, queryParams := some args }
      else if m = "PUT" then send { method := m, url := url, jsonBody := some args }
      else if m = "PATCH" then send { method := m, url := url, jsonBody := some args }
      else if m = "DELETE" then send { method := m, url := url, jsonBody := some args }
      else
        { response := errEnv mid (-32602) ("Unsupported HTTP method: " ++ m),
          upstream := [] }
  | m =>
    { response := errEnv mid (-32601) ("Method not found: " ++ pyShow m), upstream := [] }

/-- A well-formed `tools/call` envelope for tool `name` with argument
map `args`. -/

def callBody (mid : J) (name : String) (args : J) : J :=
  J.obj [("jsonrpc", J.str "2.0"), ("id", mid), ("method", J.str "tools/call"),
    ("params", J.obj [("name", J.str name), ("arguments", args)])]






/-! ### src/app/mcp_bridge_enhanced.py — the enhanced MCP bridge -/

def schemaStr (d : String) : J :=
  J.obj [("type", J.str "string"), ("description", J.str d)]

def schemaStrD (d dflt : String) : J :=
  J.obj [("type", J.str "string"), ("description", J.str d), ("default", J.str dflt)]

def schemaIntD (d : String) (dflt : Int) : J :=
  J.obj [("type", J.str "integer"), ("description", J.str d), ("default", J.num dflt)]

def schemaObjDesc (d : String) : J :=
  J.obj [("type", J.str "object"), ("description", J.str d)]

def schemaArrDesc (d : String) : J :=
  J.obj [("type", J.str "array"), ("description", J.str d)]

def toolParams (props : List (String × J)) (req : List String) : J :=
  J.obj [("type", J.str "object"), ("properties", J.obj props),
    ("required", J.arr (req.map J.str))]

/-- The registry of src/app/mcp_bridge_enhanced.py:23-184:
tool name ↦ (description, parameter schema). -/

def ENHANCED_TOOL_MAP : List (String × String × J) := [
  ("bitable_list_tables",
    ("List all tables in a Lark Base application",
     toolParams [("app_token", schemaStr "Base application token"),
       ("page_token", schemaStrD "Page token for pagination" ""),
       ("page_size", schemaIntD "Number of items per page" 20)] ["app_token"])),
  ("bitable_get_table_schema",
    ("Get detailed schema information for a specific table including all field definitions",
     toolParams [("app_token", schemaStr "Base application token"),
       ("table_id", schemaStr "Table identifier")] ["app_token", "table_id"])),
  ("bitable_list_fields",
    ("List all fields in a table with their properties and types",
     toolParams [("app_token", schemaStr "Base application token"),
       ("table_id", schemaStr "Table identifier"),
       ("view_id", schemaStrD "View identifier" ""),
       ("page_size", schemaIntD "Number of fields per page" 20)] ["app_token", "table_id"])),
  ("bitable_list_records",
    ("List records from a Lark Base table with filtering and pagination",
     toolParams [("app_token", schemaStr "Base application token"),
       ("table_id", schemaStr "Table identifier"),
       ("view_id", schemaStrD "View identifier" ""),
       ("filter", schemaStrD "Filter formula" ""),
       ("sort", schemaStrD "Sort configuration" ""),
       ("page_size", schemaIntD "Number of records per page" 20),
       ("page_token", schemaStrD "Page token for pagination" "")] ["app_token", "table_id"])),
  ("bitable_get_record",
    ("Get a specific record by ID from a Lark Base table",
     toolParams [("app_token", schemaStr "Base application token"),
       ("table_id", schemaStr "Table identifier"),
       ("record_id", schemaStr "Record identifier"),
       ("user_id_type", schemaStrD "User ID type" "user_id")]
       ["app_token", "table_id", "record_id"])),
  ("bitable_create_record",
    ("Create a new record in a Lark Base table",
     toolParams [("app_token", schemaStr "Base application token"),
       ("table_id", schemaStr "Table identifier"),
       ("fields", schemaObjDesc "Record field data as key-value pairs"),
       ("user_id_type", schemaStrD "User ID type" "user_id")]
       ["app_token", "table_id", "fields"])),
  ("bitable_update_record",
    ("Update an existing record in a Lark Base table",
     toolParams [("app_token", schemaStr "Base application token"),
       ("table_id", schemaStr "Table identifier"),
       ("record_id", schemaStr "Record identifier"),
       ("fields", schemaObjDesc "Updated field data as key-value pairs"),
       ("user_id_type", schemaStrD "User ID type" "user_id")]
       ["app_token", "table_id", "record_id", "fields"])),
  ("bitable_delete_record",
    ("Delete a record from a Lark Base table",
     toolParams [("app_token", schemaStr "Base application token"),
       ("table_id", schemaStr "Table identifier"),
       ("record_id", schemaStr "Record identifier")]
       ["app_token", "table_id", "record_id"])),
  ("bitable_batch_create_records",
    ("Create multiple records in a Lark Base table in a single operation",
     toolParams [("app_token", schemaStr "Base application token"),
       ("table_id", schemaStr "Table identifier"),
       ("records", schemaArrDesc "Array of record objects with fields"),
       ("user_id_type", schemaStrD "User ID type" "user_id")]
       ["app_token", "table_id", "records"])),
  ("bitable_search_records",
    ("Search records in a Lark Base table with advanced filtering",
     toolParams [("app_token", schemaStr "Base application token"),
       ("table_id", schemaStr "Table identifier"),
       ("filter", schemaStr "Search filter formula"),
       ("sort", schemaStrD "Sort configuration" ""),
       ("page_size", schemaIntD "Number of records per page" 20)]
       ["app_token", "table_id", "filter"])),
  ("send_lark_message",
    ("Send a message to Lark/Feishu chat",
     toolParams [("chat_id", schemaStr "Chat ID to send message to"),
       ("message", schemaStr "Message content to send")] ["chat_id", "message"])),
  ("create_bitable_app",
    ("Create a new Lark Base application",
     toolParams [("name", schemaStr "Name of the new Bitable app"),
       ("folder_token", schemaStrD "Folder token where to create the app" "")] ["name"]))]

/-- The `tools` array served by both `list_mcp_tools` and the `tools/list`
branch of `invoke_mcp_tool` (src/app/mcp_bridge_enhanced.py:508-516 and
546-559). -/

def enhancedToolsList : J :=
  J.arr (ENHANCED_TOOL_MAP.map (fun e =>
    J.obj [("name", J.str e.1), ("description", J.str e.2.1), ("inputSchema", e.2.2)]))

/-- Base URL of the remote workspace platform
(`LarkBitableClient.base_url`, src/app/mcp_bridge_enhanced.py:193). -/

def LARK_BASE : String := "https://open.larksuite.com/open-apis"

/-- A parsed upstream response to the enhanced client (the model assumes
the upstream body is JSON; `text` is the raw text used in error
messages). -/

structure LarkResp where
  status : Nat
  body : J
  text : String
deriving Repr

/-- A Python exception raised inside the enhanced bridge. -/

inductive PyErr where
  /-- `raise ValueError(msg)` -/
  | valueError : String → PyErr
  /-- `raise HTTPException(status_code, detail)` -/
  | httpException : Nat → String → PyErr
  /-- `raise Exception(msg)` -/
  | genericError : String → PyErr
  /-- `data[key]` with `key` absent -/
  | keyError : String → PyErr
  /-- a network-level failure (no upstream response available) -/
  | transportError : PyErr
deriving Repr

/-- Python `str(e)` of a modelled exception. -/

def PyErr.message : PyErr → String
  | .valueError m => m
  | .httpException code detail => toString code ++ ": " ++ detail
  | .genericError m => m
  | .keyError k => "'" ++ k ++ "'"
  | .transportError => "connection error"

/-- The world the enhanced client interacts with: the stream of upstream
responses still to be served, the log of requests issued so far, and the
client's cached `tenant_access_token` (the constructor seeds the cache
from `LARK_TENANT_ACCESS_TOKEN` when that is set). -/

structure Env where
  resps : List LarkResp
  log : List HttpReq := []
  cache : Option String := none
deriving Repr

/-- Issue one outbound HTTP request: consume the next scripted response.
An exhausted stream models a network failure. -/

def sendReq (req : HttpReq) (env : Env) : Except PyErr LarkResp × Env :=
  match env.resps with
  | [] => (.error .transportError, { env with log := env.log ++ [req] })
  | r :: rest => (.ok r, { env with resps := rest, log := env.log ++ [req] })

/-- Python falsiness of an optional credential string
(`if not self.app_id or not self.app_secret`). -/

def credMissing : Option String → Bool
  | none => true
  | some s => s.isEmpty

/-- The credential-exchange request of `get_tenant_access_token`. -/

def authTokenReq (appId appSecret : Option String) : HttpReq :=
  { method := "POST", url := LARK_BASE ++ "/auth/v3/tenant_access_token/internal",
    jsonBody := some (J.obj [("app_id", J.str (appId.getD "")),
      ("app_secret", J.str (appSecret.getD ""))]) }

/-- `LarkBitableClient.get_tenant_access_token`
(src/app/mcp_bridge_enhanced.py:195-216). -/

def get_tenant_access_token (appId appSecret : Option String) (env : Env) :
    Except PyErr String × Env :=
  match env.cache with
  | some t => (.ok t, env)
  | none =>
    if credMissing appId || credMissing appSecret then
      (.error (.valueError "App ID and App Secret required for token generation"), env)
    else
      let req : HttpReq := authTokenReq appId appSecret
      match sendReq req env with
      | (.error e, env') => (.error e, env')
      | (.ok r, env') =>
        match r.status, r.body.getKey "code" with
        | 200, some (J.num 0) =>
          match r.body.getKey "tenant_access_token" with
          | some tok =>
            (.ok (pyStr tok), { env' with cache := some (pyStr tok) })
          | none => (.error (.keyError "tenant_access_token"), env')
        | _, _ => (.error (.genericError ("Failed to get access token: " ++ r.text)), env')

/-- `LarkBitableClient._make_request`
(src/app/mcp_bridge_enhanced.py:218-235): authenticate, issue the request,
raise `HTTPException` unless the transport status is 200 or 201, and
return the parsed body — the business code of the body is not examined. -/

def make_request (appId appSecret : Option String) (method endpoint : String)
    (jsonBody queryParams : Option J) (env : Env) : Except PyErr J × Env :=
  match get_tenant_access_token appId appSecret env with
  | (.error e, env') => (.error e, env')
  | (.ok _, env') =>
    let req : HttpReq :=
      { method := method, url := LARK_BASE ++ endpoint,
        jsonBody := jsonBody, queryParams := queryParams }
    match sendReq req env' with
    | (.error e, env'') => (.error e, env'')
    | (.ok r, env'') =>
      if r.status = 200 ∨ r.status = 201 then (.ok r.body, env'')
      else (.error (.httpException r.status r.text), env'')

/-- The `if value:`-guarded kwargs-to-params filter used throughout the
client (`for key, value in kwargs.items(): if value: params[key] = value`). -/

def filterTruthy (kvs : List (String × J)) : List (String × J) :=
  kvs.filter (fun kv => kv.2.truthy)

/-- `LarkBitableClient.list_tables` (src/app/mcp_bridge_enhanced.py:238-248).
Path arguments arrive as strings (the executor renders them with `str`,
matching the client's f-string); pagination values stay JSON-typed. -/

def client_list_tables (appId appSecret : Option String) (app_token : String)
    (page_token page_size : J) (env : Env) : Except PyErr J × Env :=
  let params := J.obj ([("page_size", page_size)] ++
    (if page_token.truthy then [("page_token", page_token)] else []))
  make_request appId appSecret "GET" ("/bitable/v1/apps/" ++ app_token ++ "/tables")
    none (some params) env

/-- `LarkBitableClient.list_fields` (src/app/mcp_bridge_enhanced.py:271-281). -/

def client_list_fields (appId appSecret : Option String) (app_token table_id : String)
    (view_id page_size : J) (env : Env) : Except PyErr J × Env :=
  let params := J.obj ([("page_size", page_size)] ++
    (if view_id.truthy then [("view_id", view_id)] else []))
  make_request appId appSecret "GET"
    ("/bitable/v1/apps/" ++ app_token ++ "/tables/" ++ table_id ++ "/fields")
    none (some params) env

/-- `LarkBitableClient.get_table_schema`
(src/app/mcp_bridge_enhanced.py:250-269): two upstream calls — table
metadata, then the field list — combined into a `code 0` success payload
whose `fields` defaults to `[]` when the field-list body carries no
`data.items`. -/

def client_get_table_schema (appId appSecret : Option String) (app_token table_id : String)
    (env : Env) : Except PyErr J × Env :=
  match make_request appId appSecret "GET"
      ("/bitable/v1/apps/" ++ app_token ++ "/tables/" ++ table_id) none none env with
  | (.error e, env') => (.error e, env')
  | (.ok table_info, env') =>
    match client_list_fields appId appSecret app_token table_id (J.str "") (J.num 20) env' with
    | (.error e, env'') => (.error e, env'')
    | (.ok fields_info, env'') =>
      (.ok (J.obj [("code", J.num 0), ("msg", J.str "success"),
        ("data", J.obj [
          ("table", (((table_info.getKey "data").getD (J.obj [])).getKey "table").getD (J.obj [])),
          ("fields", (((fields_info.getKey "data").getD (J.obj [])).getKey "items").getD (J.arr []))])]),
       env'')

/-- `LarkBitableClient.list_records` (src/app/mcp_bridge_enhanced.py:284-295). -/

def client_list_records (appId appSecret : Option String) (app_token table_id : String)
    (kwargs : List (String × J)) (env : Env) : Except PyErr J × Env :=
  make_request appId appSecret "GET"
    ("/bitable/v1/apps/" ++ app_token ++ "/tables/" ++ table_id ++ "/records")
    none (some (J.obj (filterTruthy kwargs))) env

/-- `LarkBitableClient.get_record` (src/app/mcp_bridge_enhanced.py:297-308). -/

def client_get_record (appId appSecret : Option String) (app_token table_id record_id : String)
    (kwargs : List (String × J)) (env : Env) : Except PyErr J × Env :=
  make_request appId appSecret "GET"
    ("/bitable/v1/apps/" ++ app_token ++ "/tables/" ++ table_id ++ "/records/" ++ record_id)
    none (some (J.obj (filterTruthy kwargs))) env

/-- `LarkBitableClient.create_record` (src/app/mcp_bridge_enhanced.py:310-324). -/

def client_create_record (appId appSecret : Option String) (app_token table_id : String)
    (fields : J) (kwargs : List (String × J)) (env : Env) : Except PyErr J × Env :=
  make_request appId appSecret "POST"
    ("/bitable/v1/apps/" ++ app_token ++ "/tables/" ++ table_id ++ "/records")
    (some (J.obj [("fields", fields)])) (some (J.obj (filterTruthy kwargs))) env

/-- `LarkBitableClient.update_record` (src/app/mcp_bridge_enhanced.py:326-340). -/

def client_update_record (appId appSecret : Option String)
    (app_token table_id record_id : String) (fields : J) (kwargs : List (String × J))
    (env : Env) : Except PyErr J × Env :=
  make_request appId appSecret "PUT"
    ("/bitable/v1/apps/" ++ app_token ++ "/tables/" ++ table_id ++ "/records/" ++ record_id)
    (some (J.obj [("fields", fields)])) (some (J.obj (filterTruthy kwargs))) env

/-- `LarkBitableClient.delete_record` (src/app/mcp_bridge_enhanced.py:342-347). -/

def client_delete_record (appId appSecret : Option String)
    (app_token table_id record_id : String) (env : Env) : Except PyErr J × Env :=
  make_request appId appSecret "DELETE"
    ("/bitable/v1/apps/" ++ app_token ++ "/tables/" ++ table_id ++ "/records/" ++ record_id)
    none none env

/-- `LarkBitableClient.batch_create_records`
(src/app/mcp_bridge_enhanced.py:349-363); a non-array `records` value is
modelled as the empty batch. -/

def client_batch_create_records (appId appSecret : Option String)
    (app_token table_id : String) (records : J) (kwargs : List (String × J))
    (env : Env) : Except PyErr J × Env :=
  let recs := match records with
    | J.arr l => l
    | _ => []
  make_request appId appSecret "POST"
    ("/bitable/v1/apps/" ++ app_token ++ "/tables/" ++ table_id ++ "/records/batch_create")
    (some (J.obj [("records", J.arr (recs.map (fun r => J.obj [("fields", r)])))]))
    (some (J.obj (filterTruthy kwargs))) env

/-- `LarkBitableClient.search_records` (src/app/mcp_bridge_enhanced.py:365-378):
`sort` and `page_size` are copied into the payload, in that fixed order,
when present and truthy. -/

def client_search_records (appId appSecret : Option String) (app_token table_id : String)
    (filterFormula : J) (kwargs : List (String × J)) (env : Env) : Except PyErr J × Env :=
  let payload := J.obj ([("filter", filterFormula)] ++
    (["sort", "page_size"].filterMap (fun k =>
      match kwargs.lookup k with
      | some v => if v.truthy then some (k, v) else none
      | none => none)))
  make_request appId appSecret "POST"
    ("/bitable/v1/apps/" ++ app_token ++ "/tables/" ++ table_id ++ "/records/search")
    (some payload) none env

/-- The kwargs forwarded by `execute_bitable_operation`:
`**\x7bk: v for k, v in arguments.items() if k not in excluded\x7d`. -/

def remainingArgs (args : J) (excluded : List String) : List (String × J) :=
  args.items.filter (fun kv => !excluded.contains kv.1)

/-- The body of the `try` block of `execute_bitable_operation`
(src/app/mcp_bridge_enhanced.py:387-493): validate the common arguments
and route to the client method.  Raised exceptions surface in the
`Except` error branch. -/

def execute_run (appId appSecret : Option String) (toolName : String) (args : J)
    (env : Env) : Except PyErr J × Env :=
  let app_token := args.getKey "app_token"
  let table_id := args.getKey "table_id"
  if !pyTruthyOpt app_token then
    (.error (.valueError "app_token is required for all Bitable operations"), env)
  else
    let atS := pyStr (app_token.getD J.null)
    let tiS := pyStr (table_id.getD J.null)
    if toolName = "bitable_list_tables" then
      client_list_tables appId appSecret atS
        ((args.getKey "page_token").getD (J.str ""))
        ((args.getKey "page_size").getD (J.num 20)) env
    else if toolName = "bitable_get_table_schema" then
      if !pyTruthyOpt table_id then
        (.error (.valueError "table_id is required"), env)
      else client_get_table_schema appId appSecret atS tiS env
    else if toolName = "bitable_list_fields" then
      if !pyTruthyOpt table_id then
        (.error (.valueError "table_id is required"), env)
      else client_list_fields appId appSecret atS tiS
        ((args.getKey "view_id").getD (J.str ""))
        ((args.getKey "page_size").getD (J.num 20)) env
    else if toolName = "bitable_list_records" then
      if !pyTruthyOpt table_id then
        (.error (.valueError "table_id is required"), env)
      else client_list_records appId appSecret atS tiS
        (remainingArgs args ["app_token", "table_id"]) env
    else if toolName = "bitable_get_record" then
      let record_id := args.getKey "record_id"
      if !pyTruthyOpt table_id || !pyTruthyOpt record_id then
        (.error (.valueError "table_id and record_id are required"), env)
      else client_get_record appId appSecret atS tiS (pyStr (record_id.getD J.null))
        (remainingArgs args ["app_token", "table_id", "record_id"]) env
    else if toolName = "bitable_create_record" then
      let fields := args.getKey "fields"
      if !pyTruthyOpt table_id || !pyTruthyOpt fields then
        (.error (.valueError "table_id and fields are required"), env)
      else client_create_record appId appSecret atS tiS (fields.getD J.null)
        (remainingArgs args ["app_token", "table_id", "fields"]) env
    else if toolName = "bitable_update_record" then
      let record_id := args.getKey "record_id"
      let fields := args.getKey "fields"
      if !pyTruthyOpt table_id || !pyTruthyOpt record_id || !pyTruthyOpt fields then
        (.error (.valueError "table_id, record_id and fields are required"), env)
      else client_update_record appId appSecret atS tiS (pyStr (record_id.getD J.null))
        (fields.getD J.null)
        (remainingArgs args ["app_token", "table_id", "record_id", "fields"]) env
    else if toolName = "bitable_delete_record" then
      let record_id := args.getKey "record_id"
      if !pyTruthyOpt table_id || !pyTruthyOpt record_id then
        (.error (.valueError "table_id and record_id are required"), env)
      else client_delete_record appId appSecret atS tiS (pyStr (record_id.getD J.null)) env
    else if toolName = "bitable_batch_create_records" then
      let records := args.getKey "records"
      if !pyTruthyOpt table_id || !pyTruthyOpt records then
        (.error (.valueError "table_id and records are required"), env)
      else client_batch_create_records appId appSecret atS tiS (records.getD J.null)
        (remainingArgs args ["app_token", "table_id", "records"]) env
    else if toolName = "bitable_search_records" then
      let filterFormula := args.getKey "filter"
      if !pyTruthyOpt table_id || !pyTruthyOpt filterFormula then
        (.error (.valueError "table_id and filter are required"), env)
      else client_search_records appId appSecret atS tiS (filterFormula.getD J.null)
        (remainingArgs args ["app_token", "table_id", "filter"]) env
    else
      (.error (.valueError ("Unknown Bitable operation: " ++ toolName)), env)

/-- `execute_bitable_operation` (src/app/mcp_bridge_enhanced.py:387-503):
the whole dispatch runs inside `try/except Exception`, every raised error
becoming an `\x7b"error": ...\x7d` value. -/

def execute_bitable_operation (appId appSecret : Option String) (toolName : String)
    (args : J) (env : Env) : J × Env :=
  match execute_run appId appSecret toolName args env with
  | (.ok v, env') => (v, env')
  | (.error e, env') =>
    (J.obj [("error", J.obj [("code", J.num (-1)), ("message", J.str e.message),
      ("type", J.str "execution_error")])], env')

/-- The HTTP response produced by the enhanced bridge endpoint (a plain
dict return is served with status 200). -/

structure WebResp where
  status : Nat
  body : J
deriving Repr

/-- Python `s.startsWith(pre)` as a kernel-computable prefix test. -/

def strStartsWith (s pre : String) : Bool :=
  pre.data.isPrefixOf s.data

/-- Python `"error" in result` on the executed result (the modelled
results are dicts). -/

def hasErrorKey : J → Bool
  | J.obj kvs => kvs.any (fun kv => kv.1 == "error")
  | _ => false

/-- Error envelope of the enhanced bridge (`JSONResponse` content,
src/app/mcp_bridge_enhanced.py). -/

def enhErrBody (id_ : J) (code : Int) (msg : String) : J :=
  J.obj [("jsonrpc", J.str "2.0"),
    ("error", J.obj [("code", J.num code), ("message", J.str msg)]), ("id", id_)]

/-- `invoke_mcp_tool` (src/app/mcp_bridge_enhanced.py:518-656).  A
non-dict body is modelled directly as the status-500, code -32603 outcome its
`AttributeError` produces through the outer `except` handler. -/

def invoke_mcp_tool (appId appSecret : Option String) (body : J) (env : Env) :
    WebResp × Env :=
  match body with
  | J.obj _ =>
    match body.getKey "jsonrpc" with
    | some (J.str "2.0") =>
      let request_id := (body.getKey "id").getD J.null
      match body.getKey "method" with
      | some (J.str "tools/list") =>
        ({ status := 200,
           body := J.obj [("jsonrpc", J.str "2.0"),
             ("result", J.obj [("tools", enhancedToolsList)]), ("id", request_id)] }, env)
      | some (J.str "tools/call") =>
        let params := (body.getKey "params").getD (J.obj [])
        let toolName := params.getKey "name"
        let arguments := (params.getKey "arguments").getD (J.obj [])
        if !pyTruthyOpt toolName then
          ({ status := 400, body := enhErrBody request_id (-32602) "Missing tool name" }, env)
        else
          match toolName with
          | some (J.str s) =>
            if (ENHANCED_TOOL_MAP.find? (fun e => e.1 == s)).isNone then
              ({ status := 404,
                 body := enhErrBody request_id (-32601) ("Tool not found: " ++ s) }, env)
            else if strStartsWith s "bitable_" then
              let res := execute_bitable_operation appId appSecret s arguments env
              ({ status := 200,
                 body := J.obj [("jsonrpc", J.str "2.0"),
                   ("result", J.obj [("content", J.str (jsonDumps res.1)),
                     ("isError", J.bool (hasErrorKey res.1))]),
                   ("id", request_id)] }, res.2)
            else
              ({ status := 200,
                 body := J.obj [("jsonrpc", J.str "2.0"),
                   ("result", J.obj [("content", J.str (jsonDumps (J.obj
                       [("message", J.str ("Legacy tool " ++ s ++ " executed")),
                        ("arguments", arguments)]))),
                     ("isError", J.bool false)]),
                   ("id", request_id)] }, env)
          | _ =>
            ({ status := 404,
               body := enhErrBody request_id (-32601)
                 ("Tool not found: " ++ pyShow toolName) }, env)
      | m =>
        ({ status := 400,
           body := enhErrBody request_id (-32601) ("Method not found: " ++ pyShow m) }, env)
    | _ =>
      ({ status := 400, body := enhErrBody ((body.getKey "id").getD J.null) (-32600)
          "Invalid Request" }, env)
  | _ =>
    ({ status := 500, body := enhErrBody J.null (-32603)
        "Internal error: AttributeError" }, env)

/-! ### src/app.py — LarkClient and the single-record Bitable endpoints -/

/-- Outcome classifier for the modelled `Except` results. -/

def exOk {α : Type} : Except PyErr α → Bool
  | .ok _ => true
  | .error _ => false

/-- Python `api_response.get("code") == 0`. -/

def appPyCodeZero (api : J) : Bool :=
  match api.getKey "code" with
  | some (J.num 0) => true
  | _ => false

/-- The `MessageResponse` fields relevant to the endpoints (api_response
is carried alongside by the source and omitted here). -/

structure MessageResponse where
  success : Bool
  message : String
  details : String
deriving Repr

/-- The `create_bitable_record` endpoint of src/app.py:1255-1281, applied
to the `(status_code, api_response)` pair the client returned. -/

def create_bitable_record_endpoint (status : Nat) (api : J) : MessageResponse :=
  if status == 200 && appPyCodeZero api then
    { success := true, message := "Record created successfully in Bitable table",
      details := "Record ID: " ++
        pyShow (((api.getKey "data").getD (J.obj [])).getKey "record_id") }
  else
    { success := false, message := "Failed to create Bitable record",
      details := "API error: " ++ pyStr api }

/-- The `update_bitable_record` endpoint of src/app.py:1283-1310. -/

def update_bitable_record_endpoint (record_id : String) (status : Nat) (api : J) :
    MessageResponse :=
  if status == 200 && appPyCodeZero api then
    { success := true, message := "Record updated successfully in Bitable table",
      details := "Record ID: " ++ record_id }
  else
    { success := false, message := "Failed to update Bitable record",
      details := "API error: " ++ pyStr api }

/-- The `delete_bitable_record` endpoint of src/app.py:1312-1338. -/

def delete_bitable_record_endpoint (record_id : String) (status : Nat) (api : J) :
    MessageResponse :=
  if status == 200 && appPyCodeZero api then
    { success := true, message := "Record deleted successfully from Bitable table",
      details := "Record ID: " ++ record_id }
  else
    { success := false, message := "Failed to delete Bitable record",
      details := "API error: " ++ pyStr api }

/-- `LarkClient.get_access_token` (src/app.py:250-273) in sequential form:
given the cached token state and the response the auth endpoint would
return, produce the result, the new cache state and the number of
outbound auth requests issued.  (`LarkClient` is only constructed when
both credentials are set, src/app.py:635, so no credential check appears
in the method itself.) -/

def app_get_access_token (cache : Option String) (resp : LarkResp) :
    Except PyErr String × Option String × Nat :=
  match cache with
  | some t => (.ok t, cache, 0)
  | none =>
    match resp.status, resp.body.getKey "code" with
    | 200, some (J.num 0) =>
      match resp.body.getKey "tenant_access_token" with
      | some tok => (.ok (pyStr tok), some (pyStr tok), 1)
      | none => (.error (.keyError "tenant_access_token"), none, 1)
    | 200, _ =>
      (.error (.httpException 400 ("Lark auth failed: " ++ pyStr resp.body)), none, 1)
    | s, _ => (.error (.httpException s "Lark auth request failed"), none, 1)

/-! ### Concurrency model of the unguarded token cache (src/app.py:250-273)

Two tasks run `LarkClient.get_access_token` concurrently.  Each task
first tests `self._access_token` and, finding it `None`, suspends on the
awaited auth POST; the test and the request are separated by that `await`
suspension point and no lock or in-flight marker guards the cache. -/

/-- Program counter of one task inside `get_access_token`: `start` =
about to test the cache; `fetching` = found it empty, about to issue the
outbound auth request; `done t` = returned `t`. -/

inductive CallerPC where
  | start
  | fetching
  | done : String → CallerPC
deriving DecidableEq, Repr

structure RaceState where
  cache : Option String
  pcA : CallerPC
  pcB : CallerPC
  authRequests : Nat
deriving DecidableEq, Repr

/-- One step of a single task: the cache test, or the request-and-store
(the remote is assumed to answer status 200, code 0, token `tok`). -/

def callerStep (tok : String) (cache : Option String) (pc : CallerPC)
    (authRequests : Nat) : CallerPC × Option String × Nat :=
  match pc with
  | .start =>
    match cache with
    | some t => (.done t, cache, authRequests)
    | none => (.fetching, cache, authRequests)
  | .fetching => (.done tok, some tok, authRequests + 1)
  | .done t => (.done t, cache, authRequests)

/-- Scheduler step: `true` runs task A, `false` runs task B. -/

def raceStep (tok : String) (s : RaceState) (who : Bool) : RaceState :=
  if who then
    let r := callerStep tok s.cache s.pcA s.authRequests
    { s with pcA := r.1, cache := r.2.1, authRequests := r.2.2 }
  else
    let r := callerStep tok s.cache s.pcB s.authRequests
    { s with pcB := r.1, cache := r.2.1, authRequests := r.2.2 }

/-- Run a schedule from the empty cache with both tasks at their cache
test. -/

def raceRun (tok : String) (sched : List Bool) : RaceState :=
  sched.foldl (raceStep tok)
    { cache := none, pcA := .start, pcB := .start, authRequests := 0 }














/-- Claim C8 (single-flight): with the unguarded cache of
`LarkClient.get_access_token`, the interleaving in which both tasks test
the empty cache before either stores a token issues **two** outbound auth
requests, refuting the claimed single-flight property; only the
non-overlapping schedule (A runs to completion before B tests) issues
one. -/

theorem replaceAllGo_nil (pat repl : List Char) (f : Nat) :
    replaceAllGo pat repl f [] = [] := by
  cases f <;> rfl

/-- Any fuel at least the string length computes the same result. -/
theorem replaceAllGo_fuel (pat repl : List Char) :
    ∀ f₁ : Nat, ∀ s : List Char, ∀ f₂ : Nat, s.length ≤ f₁ → s.length ≤ f₂ →
      replaceAllGo pat repl f₁ s = replaceAllGo pat repl f₂ s := by
  intro f₁
  induction f₁ with
  | zero =>
    intro s f₂ h1 _
    have hs : s = [] := by cases s <;> simp_all
    subst hs
    simp [replaceAllGo_nil]
  | succ f ih =>
    intro s f₂ h1 h2
    cases s with
    | nil => simp [replaceAllGo_nil]
    | cons c rest =>
      cases f₂ with
      | zero => simp at h2
      | succ g =>
        simp only [replaceAllGo]
        simp only [List.length_cons] at h1 h2
        split
        · have hd : ∀ m : Nat, (rest.drop (pat.length - 1)).length ≤ m ↔
              rest.length - (pat.length - 1) ≤ m := by
            intro m
            rw [List.length_drop]
          rw [ih _ g ((hd f).mpr (by omega)) ((hd g).mpr (by omega))]
        · rw [ih rest g (by omega) (by omega)]

/-- Scanning past a character that cannot start a match. -/
theorem replaceAll_cons_no_match {pat repl : List Char} {c : Char} {s : List Char}
    (h : pat.isPrefixOf (c :: s) = false) :
    replaceAll pat repl (c :: s) = c :: replaceAll pat repl s := by
  simp [replaceAll, replaceAllGo, h]

/-- A match at the head of the string is replaced. -/
theorem replaceAll_append_left {pat repl : List Char} (hne : pat ≠ []) (s : List Char) :
    replaceAll pat repl (pat ++ s) = repl ++ replaceAll pat repl s := by
  cases pat with
  | nil => exact absurd rfl hne
  | cons c pt =>
    have hpre : (c :: pt).isPrefixOf ((c :: pt) ++ s) = true := by
      rw [List.isPrefixOf_iff_prefix]
      exact List.prefix_append _ _
    simp only [replaceAll, List.cons_append, replaceAllGo, List.isEmpty_cons,
      Bool.not_false, Bool.true_and, List.append_eq]
    rw [List.cons_append] at hpre
    simp only [hpre, if_pos]
    congr 1
    have hdrop : List.drop ((c :: pt).length - 1) (pt ++ s) = s := by
      simp only [List.length_cons, Nat.add_sub_cancel]
      exact List.drop_left pt s
    rw [hdrop]
    exact replaceAllGo_fuel _ _ _ _ _ (by simp) le_rfl

theorem braceFree_cons {c : Char} {l : List Char} :
    braceFree (c :: l) = ((c ≠ '{' && c ≠ '}') && braceFree l) := by
  simp [braceFree]

theorem braceFree_append {a b : List Char} :
    braceFree (a ++ b) = (braceFree a && braceFree b) := by
  simp [braceFree, List.all_append]

/-- The placeholder pattern starts with a brace, so a brace-free literal is
copied through unchanged. -/
theorem replaceAll_brace_free_append {k v : List Char} :
    ∀ lit : List Char, braceFree lit = true →
      ∀ s, replaceAll (phPat k) v (lit ++ s) = lit ++ replaceAll (phPat k) v s := by
  intro lit
  induction lit with
  | nil => intro _ s; simp
  | cons c cs ih =>
    intro h s
    rw [braceFree_cons, Bool.and_eq_true, Bool.and_eq_true] at h
    obtain ⟨⟨hc1, _⟩, hcs⟩ := h
    have hc1' : c ≠ '{' := by simpa using hc1
    have hnp : (phPat k).isPrefixOf (c :: (cs ++ s)) = false := by
      simp only [phPat, List.isPrefixOf]
      have hbe : ('{' == c) = false := by
        simp only [beq_eq_false_iff_ne, ne_eq]
        exact fun he => hc1' he.symm
      simp [hbe]
    rw [List.cons_append, replaceAll_cons_no_match hnp, ih hcs s, List.cons_append]

/-- Core mismatch: a placeholder pattern for key `k` cannot match a
placeholder occurrence of a different key `k'` (keys brace-free). -/
theorem phPat_body_no_match :
    ∀ k k' s : List Char, braceFree k = true → braceFree k' = true → k ≠ k' →
      (k ++ ['}']).isPrefixOf (k' ++ '}' :: s) = false := by
  intro k
  induction k with
  | nil =>
    intro k' s _ hk' hne
    cases k' with
    | nil => exact absurd rfl hne
    | cons c k'' =>
      rw [braceFree_cons, Bool.and_eq_true, Bool.and_eq_true] at hk'
      obtain ⟨⟨_, hc2⟩, _⟩ := hk'
      have hc2' : c ≠ '}' := by simpa using hc2
      simp only [List.nil_append, List.cons_append, List.isPrefixOf]
      have hbe : ('}' == c) = false := by
        simp only [beq_eq_false_iff_ne, ne_eq]
        exact fun he => hc2' he.symm
      simp [hbe]
  | cons c k₂ ih =>
    intro k' s hk hk' hne
    rw [braceFree_cons, Bool.and_eq_true, Bool.and_eq_true] at hk
    obtain ⟨⟨_, hc2⟩, hk₂⟩ := hk
    cases k' with
    | nil =>
      have hc2' : c ≠ '}' := by simpa using hc2
      simp only [List.cons_append, List.nil_append, List.isPrefixOf]
      have hbe : (c == '}') = false := by
        simp only [beq_eq_false_iff_ne, ne_eq]
        exact hc2'
      simp [hbe]
    | cons c' k₃ =>
      rw [braceFree_cons, Bool.and_eq_true] at hk'
      obtain ⟨_, hk₃⟩ := hk'
      simp only [List.cons_append, List.isPrefixOf]
      by_cases hcc : c = c'
      · subst hcc
        have hne2 : k₂ ≠ k₃ := by
          intro he; exact hne (by rw [he])
        simp [ih k₃ s hk₂ hk₃ hne2]
      · have : (c == c') = false := by simpa using hcc
        simp [this]

/-- A placeholder occurrence of a *different* brace-free key is copied
through unchanged. -/
theorem replaceAll_ph_mismatch {k k' v : List Char}
    (hk : braceFree k = true) (hk' : braceFree k' = true) (hne : k ≠ k') (s : List Char) :
    replaceAll (phPat k) v (phPat k' ++ s) = phPat k' ++ replaceAll (phPat k) v s := by
  have hnp : (phPat k).isPrefixOf ('{' :: (k' ++ '}' :: s)) = false := by
    simp only [phPat, List.isPrefixOf, beq_self_eq_true, Bool.true_and]
    exact phPat_body_no_match k k' s hk hk' hne
  have h1 : phPat k' ++ s = '{' :: (k' ++ '}' :: s) := by
    simp [phPat]
  rw [h1, replaceAll_cons_no_match hnp,
    replaceAll_brace_free_append k' hk' ('}' :: s)]
  have hnp2 : (phPat k).isPrefixOf ('}' :: s) = false := by
    simp [phPat, List.isPrefixOf]
  rw [replaceAll_cons_no_match hnp2]
  simp [phPat]

theorem substSeg_wf {k v : List Char} (hv : braceFree v = true) :
    ∀ s : Seg, SegWF s → SegWF (substSeg k v s) := by
  intro s hs
  cases s with
  | lit l => exact hs
  | ph k' =>
    simp only [substSeg]
    split
    · exact hv
    · exact hs

theorem renderSegs_nil : renderSegs [] = [] := rfl

theorem renderSegs_cons (sg : Seg) (rest : List Seg) :
    renderSegs (sg :: rest) = renderSeg sg ++ renderSegs rest := by
  simp [renderSegs]

/-- One `str.replace` pass over a rendered well-formed template acts
segmentwise. -/
theorem replaceAll_renderSegs {k v : List Char} (hk : braceFree k = true) :
    ∀ segs : List Seg, (∀ s ∈ segs, SegWF s) →
      replaceAll (phPat k) v (renderSegs segs) = renderSegs (segs.map (substSeg k v)) := by
  intro segs
  induction segs with
  | nil =>
    intro _
    simp [renderSegs, replaceAll, replaceAllGo_nil]
  | cons sg rest ih =>
    intro hwf
    have hsg : SegWF sg := hwf sg (List.mem_cons_self _ _)
    have hrest : ∀ s ∈ rest, SegWF s := fun s hs => hwf s (List.mem_cons_of_mem _ hs)
    cases sg with
    | lit l =>
      have hl : braceFree l = true := hsg
      rw [List.map_cons, renderSegs_cons, renderSegs_cons]
      simp only [substSeg, renderSeg]
      rw [replaceAll_brace_free_append l hl _, ih hrest]
    | ph k' =>
      by_cases hkk : k' = k
      · subst hkk
        rw [List.map_cons, renderSegs_cons, renderSegs_cons]
        rw [show substSeg k' v (Seg.ph k') = Seg.lit v by simp [substSeg]]
        simp only [renderSeg]
        rw [replaceAll_append_left (by simp [phPat]) _, ih hrest]
      · have hk' : braceFree k' = true := hsg
        rw [List.map_cons, renderSegs_cons, renderSegs_cons]
        simp only [substSeg, if_neg hkk, renderSeg]
        rw [replaceAll_ph_mismatch hk hk' (fun he => hkk he.symm) _, ih hrest]

theorem substAllSeg_lit (args : List (List Char × List Char)) (l : List Char) :
    substAllSeg args (Seg.lit l) = Seg.lit l := by
  induction args with
  | nil => rfl
  | cons kv rest ih => simpa [substAllSeg, substSeg] using ih

/-- The substitution loop of `mcp_invoke` over a rendered well-formed
template equals the segmentwise substitution. -/
theorem resolveChars_renderSegs :
    ∀ (args : List (List Char × List Char)) (segs : List Seg),
      (∀ s ∈ segs, SegWF s) →
      (∀ kv ∈ args, braceFree kv.1 = true ∧ braceFree kv.2 = true) →
      resolveChars (renderSegs segs) args = renderSegs (segs.map (substAllSeg args)) := by
  intro args
  induction args with
  | nil =>
    intro segs _ _
    have hid : segs.map (substAllSeg []) = segs := by
      induction segs with
      | nil => rfl
      | cons sg rest ihs => simp_all [substAllSeg]
    rw [hid]
    rfl
  | cons kv rest ih =>
    intro segs hwf hargs
    have hk : braceFree kv.1 = true := (hargs kv (List.mem_cons_self _ _)).1
    have hv : braceFree kv.2 = true := (hargs kv (List.mem_cons_self _ _)).2
    have step : resolveChars (renderSegs segs) (kv :: rest)
        = resolveChars (replaceAll (phPat kv.1) kv.2 (renderSegs segs)) rest := rfl
    rw [step, replaceAll_renderSegs hk segs hwf,
      ih (segs.map (substSeg kv.1 kv.2))
        (by
          intro s hs
          obtain ⟨t, ht, rfl⟩ := List.mem_map.mp hs
          exact substSeg_wf hv t (hwf t ht))
        (fun kv' h => hargs kv' (List.mem_cons_of_mem _ h)),
      List.map_map]
    rfl

/-- A placeholder whose key carries binding `(k, v)` in an argument list
with distinct keys ends up as the literal `v`. -/
theorem substAllSeg_ph_of_mem :
    ∀ (args : List (List Char × List Char)) (k v : List Char),
      (k, v) ∈ args → (args.map Prod.fst).Nodup →
      substAllSeg args (Seg.ph k) = Seg.lit v := by
  intro args
  induction args with
  | nil =>
    intro k v hm _
    exact absurd hm (List.not_mem_nil _)
  | cons kv rest ih =>
    intro k v hm hnd
    obtain ⟨k₁, v₁⟩ := kv
    rw [List.map_cons, List.nodup_cons] at hnd
    obtain ⟨hk₁, hnd'⟩ := hnd
    by_cases hkk : k = k₁
    · subst hkk
      have hv : v₁ = v := by
        rcases List.mem_cons.mp hm with h | h
        · exact (Prod.mk.injEq _ _ _ _ ▸ h).symm.1.symm ▸ rfl
        · exact absurd (List.mem_map.mpr ⟨(k, v), h, rfl⟩) hk₁
      subst hv
      show substAllSeg rest (substSeg k v₁ (Seg.ph k)) = Seg.lit v₁
      rw [show substSeg k v₁ (Seg.ph k) = Seg.lit v₁ by simp [substSeg]]
      exact substAllSeg_lit rest v₁
    · have hm' : (k, v) ∈ rest := by
        rcases List.mem_cons.mp hm with h | h
        · exact absurd (congrArg Prod.fst h) hkk
        · exact h
      show substAllSeg rest (substSeg k₁ v₁ (Seg.ph k)) = Seg.lit v
      rw [show substSeg k₁ v₁ (Seg.ph k) = Seg.ph k by simp [substSeg, hkk]]
      exact ih k v hm' hnd'

theorem braceFree_renderSegs {segs : List Seg}
    (h : ∀ s ∈ segs, braceFree (renderSeg s) = true) :
    braceFree (renderSegs segs) = true := by
  induction segs with
  | nil => rfl
  | cons sg rest ih =>
    rw [renderSegs_cons, braceFree_append, Bool.and_eq_true]
    exact ⟨h sg (List.mem_cons_self _ _),
      ih (fun s hs => h s (List.mem_cons_of_mem _ hs))⟩

/-- Claim C3, amended.  The substitution loop of `mcp_invoke`
(src/mcp_bridge.py:88-89) replaces, sequentially in argument order, every
literal occurrence of `\x7bkey\x7d` with the string form of the value.  For a
well-formed template (brace-free literals interleaved with placeholders)
whose placeholder keys all occur among the (distinct, brace-free) argument
keys, and whose argument values are brace-free, the result contains no
brace token at all and contains each substituted value literally.
(The original claim's order-independence clause is refuted by
`C3_path_resolver_counterexample`: a substituted value that contains a
later key's placeholder is reinterpreted by the later pass.) -/
theorem C3_path_resolver_amended :
    ∀ (segs : List Seg) (args : List (List Char × List Char)),
      (∀ s ∈ segs, SegWF s) →
      (∀ kv ∈ args, braceFree kv.1 = true ∧ braceFree kv.2 = true) →
      (args.map Prod.fst).Nodup →
      (∀ k, Seg.ph k ∈ segs → k ∈ args.map Prod.fst) →
      braceFree (resolveChars (renderSegs segs) args) = true ∧
      ∀ kv ∈ args, Seg.ph kv.1 ∈ segs →
        kv.2 <:+: resolveChars (renderSegs segs) args := by
  intro segs args hwf hargs hnd hcov
  rw [resolveChars_renderSegs args segs hwf hargs]
  constructor
  · refine braceFree_renderSegs ?_
    intro s hs
    obtain ⟨t, ht, rfl⟩ := List.mem_map.mp hs
    cases t with
    | lit l =>
      rw [substAllSeg_lit]
      exact hwf _ ht
    | ph k =>
      obtain ⟨kv, hkv, hfst⟩ := List.mem_map.mp (hcov k ht)
      have hm : (k, kv.2) ∈ args := by
        have : kv = (k, kv.2) := by
          cases kv
          simp_all
        exact this ▸ hkv
      rw [substAllSeg_ph_of_mem args k kv.2 hm hnd]
      exact (hargs kv hkv).2
  · intro kv hkv hph
    have hsub : substAllSeg args (Seg.ph kv.1) = Seg.lit kv.2 :=
      substAllSeg_ph_of_mem args kv.1 kv.2 (by cases kv; exact hkv) hnd
    have hmem : (kv.2 : List Char) ∈ (segs.map (substAllSeg args)).map renderSeg := by
      refine List.mem_map.mpr ⟨Seg.lit kv.2, ?_, rfl⟩
      exact List.mem_map.mpr ⟨Seg.ph kv.1, hph, hsub⟩
    exact List.infix_of_mem_flatten hmem

/-- Witness for `C3_path_resolver_amended`: the spec's own example — a
template with placeholders `\x7ba\x7d,\x7bb\x7d` and arguments `a ↦ X`,
`b ↦ Y` — resolves to a brace-free path. -/
theorem C3_path_resolver_amended_witness :
    (∀ s ∈ [Seg.lit "/t/".data, Seg.ph "a".data, Seg.lit "/".data, Seg.ph "b".data], SegWF s) ∧
    braceFree (resolveChars
      (renderSegs [Seg.lit "/t/".data, Seg.ph "a".data, Seg.lit "/".data, Seg.ph "b".data])
      [("a".data, "X".data), ("b".data, "Y".data)]) = true := by
  refine ⟨by decide, ?_⟩
  have hcov : ∀ k, Seg.ph k ∈
      [Seg.lit "/t/".data, Seg.ph "a".data, Seg.lit "/".data, Seg.ph "b".data] →
      k ∈ List.map Prod.fst [("a".data, "X".data), ("b".data, "Y".data)] := by
    intro k hk
    simp only [List.mem_cons, List.not_mem_nil, or_false] at hk
    rcases hk with h | h | h | h <;> first
      | (obtain rfl := Seg.ph.inj h; decide)
      | exact absurd h (by simp)
  exact (C3_path_resolver_amended
    [Seg.lit "/t/".data, Seg.ph "a".data, Seg.lit "/".data, Seg.ph "b".data]
    [("a".data, "X".data), ("b".data, "Y".data)]
    (by decide) (by decide) (by decide) hcov).1

/-- Claim C3, counterexample to the original statement.  The loop replaces
keys sequentially; the substituted value `\x7bb\x7d` of key `a` is itself
reinterpreted as a template by the later substitution for key `b`, so the
result depends on the order in which the argument map is iterated: the two
insertion orders of the same key-value mapping give `"Y"` and `"\x7bb\x7d"`
respectively. -/
theorem C3_path_resolver_counterexample :
    resolvePath "{a}" [("a", J.str "{b}"), ("b", J.str "Y")] = "Y" ∧
    resolvePath "{a}" [("b", J.str "Y"), ("a", J.str "{b}")] = "{b}" := by
  constructor <;> rfl

/-- Every registry entry uses one of the five dispatched HTTP methods. -/
theorem toolMap_methods :
    ∀ e ∈ TOOL_MAP, e.2.1 = "POST" ∨ e.2.1 = "GET" ∨ e.2.1 = "PUT" ∨
      e.2.1 = "PATCH" ∨ e.2.1 = "DELETE" := by
  decide

/-- Claim C4, amended.  For every `tools/call` of a registered tool, the
dispatcher forwards the same, complete argument map to the HTTP layer
after path substitution, with no field removed (path-consumed fields
included) — as the JSON request body when the tool's method is POST, PUT,
PATCH **or DELETE**, and as query parameters only when it is GET.  (The
original claim put DELETE on the query-parameter side; the source passes
`json=args` for DELETE, see `C4_argument_forwarding_counterexample`.) -/
theorem C4_argument_forwarding_amended :
    ∀ (name m pathT : String) (mid : J) (argkvs : List (String × J))
      (oracle : HttpReq → UpstreamResp),
      TOOL_MAP.find? (fun e => e.1 == name) = some (name, m, pathT) →
      (mcp_invoke (callBody mid name (J.obj argkvs)) oracle).upstream =
        [{ method := m,
           url := INTERNAL_BASE ++ resolvePath pathT argkvs,
           jsonBody := if m = "GET" then none else some (J.obj argkvs),
           queryParams := if m = "GET" then some (J.obj argkvs) else none }] := by
  intro name m pathT mid argkvs oracle hfind
  have hmem : (name, m, pathT) ∈ TOOL_MAP := List.mem_of_find?_eq_some hfind
  have hm := toolMap_methods _ hmem
  simp only at hm
  rcases hm with h|h|h|h|h <;> subst h <;>
    simp [mcp_invoke, callBody, J.getKey, List.lookup, J.truthy, hfind, J.items]

/-- Witness for `C4_argument_forwarding_amended`: a POST tool forwards the
full argument map as the JSON body, including the path-consumed
fields `app_token` and `table_id`. -/
theorem C4_argument_forwarding_amended_witness :
    TOOL_MAP.find? (fun e => e.1 == "create_bitable_record") =
      some ("create_bitable_record",
        ("POST", "/api/v1/bitable/apps/{app_token}/tables/{table_id}/records/create")) ∧
    (mcp_invoke (callBody (J.num 7) "create_bitable_record"
        (J.obj [("app_token", J.str "A"), ("table_id", J.str "T")]))
        (fun _ => ⟨200, some (J.obj []), ""⟩)).upstream =
      [{ method := "POST",
         url := INTERNAL_BASE ++ resolvePath
           "/api/v1/bitable/apps/{app_token}/tables/{table_id}/records/create"
           [("app_token", J.str "A"), ("table_id", J.str "T")],
         jsonBody := if "POST" = "GET" then none
           else some (J.obj [("app_token", J.str "A"), ("table_id", J.str "T")]),
         queryParams := if "POST" = "GET"
           then some (J.obj [("app_token", J.str "A"), ("table_id", J.str "T")])
           else none }] :=
  ⟨rfl, C4_argument_forwarding_amended "create_bitable_record" "POST"
    "/api/v1/bitable/apps/{app_token}/tables/{table_id}/records/create"
    (J.num 7) [("app_token", J.str "A"), ("table_id", J.str "T")]
    (fun _ => ⟨200, some (J.obj []), ""⟩) rfl⟩

/-- Claim C4, counterexample to the original statement.  For the DELETE
tool `delete_bitable_record` the dispatcher forwards the argument map as
the JSON request body (`c.delete(url, json=args)`,
src/mcp_bridge.py:101), not as query parameters as claimed. -/
theorem C4_argument_forwarding_counterexample :
    ((mcp_invoke (callBody (J.num 1) "delete_bitable_record"
        (J.obj [("app_token", J.str "A"), ("table_id", J.str "T"), ("record_id", J.str "R")]))
        (fun _ => ⟨200, some (J.obj []), ""⟩)).upstream.map
      (fun r => (r.method, r.jsonBody, r.queryParams))) =
    [("DELETE",
      some (J.obj [("app_token", J.str "A"), ("table_id", J.str "T"), ("record_id", J.str "R")]),
      none)] := by
  rfl

/-- Claim C5, counterexample to the original statement.  In the basic
bridge (src/mcp_bridge.py:72-79) a `tools/list` envelope does **not**
short-circuit: the dispatcher issues one upstream HTTP GET to
`INTERNAL_BASE/mcp/tools` to fetch the tool list. -/
theorem C5_tools_list_counterexample :
    ((mcp_invoke (J.obj [("jsonrpc", J.str "2.0"), ("id", J.num 1),
        ("method", J.str "tools/list")])
        (fun _ => ⟨200, some (J.obj [("tools", J.arr [])]), ""⟩)).upstream.map
      (fun r => (r.method, r.url))) = [("GET", INTERNAL_BASE ++ "/mcp/tools")] := by
  rfl

/-- Claim C6, counterexample to the original statement.  In the basic
bridge a `tools/call` whose params carry no `name` falls into the
`name not in TOOL_MAP` branch and is answered with error code -32601
(src/mcp_bridge.py:84-85), not -32602. -/
theorem C6_missing_name_counterexample :
    ((mcp_invoke (J.obj [("jsonrpc", J.str "2.0"), ("id", J.num 1),
        ("method", J.str "tools/call"), ("params", J.obj [])])
        (fun _ => ⟨200, some (J.obj []), ""⟩)).response.getKey "error").bind
      (fun e => e.getKey "code") = some (J.num (-32601)) := by
  rfl

/-- Every name registered in the enhanced tool map is non-empty. -/
theorem enhanced_names_nonempty : ∀ e ∈ ENHANCED_TOOL_MAP, e.1.isEmpty = false := by
  decide

/-- Claim C5, amended.  The **enhanced** dispatcher short-circuits
`tools/list`: it answers with the full `ENHANCED_TOOL_MAP` contents
rendered as descriptors, and the environment — response stream, request
log and token cache — is returned unchanged, i.e. no upstream call is
performed.  (The basic bridge instead fetches the tool list from
upstream, see `C5_tools_list_counterexample`.) -/
theorem C5_tools_list_amended :
    ∀ (appId appSecret : Option String) (body : J) (env : Env),
      body.isObj = true →
      body.getKey "jsonrpc" = some (J.str "2.0") →
      body.getKey "method" = some (J.str "tools/list") →
      invoke_mcp_tool appId appSecret body env =
        ({ status := 200,
           body := J.obj [("jsonrpc", J.str "2.0"),
             ("result", J.obj [("tools", enhancedToolsList)]),
             ("id", (body.getKey "id").getD J.null)] }, env) := by
  intro appId appSecret body env hobj hrpc hm
  match body, hobj with
  | J.obj kvs, _ =>
    simp only [invoke_mcp_tool, hrpc, hm]

/-- Witness for `C5_tools_list_amended`. -/
theorem C5_tools_list_amended_witness :
    (J.obj [("jsonrpc", J.str "2.0"), ("id", J.num 3),
      ("method", J.str "tools/list")]).isObj = true ∧
    invoke_mcp_tool (some "i") (some "s")
        (J.obj [("jsonrpc", J.str "2.0"), ("id", J.num 3), ("method", J.str "tools/list")])
        { resps := [] } =
      ({ status := 200,
         body := J.obj [("jsonrpc", J.str "2.0"),
           ("result", J.obj [("tools", enhancedToolsList)]),
           ("id", ((J.obj [("jsonrpc", J.str "2.0"), ("id", J.num 3),
             ("method", J.str "tools/list")]).getKey "id").getD J.null)] },
       { resps := [] }) :=
  ⟨rfl, C5_tools_list_amended (some "i") (some "s") _ _ rfl rfl rfl⟩

/-- Claim C6, amended.  The **enhanced** dispatcher answers a
`tools/call` without `params.name` with error code -32602 and performs no
upstream call.  (The basic bridge answers -32601 in that case, see
`C6_missing_name_counterexample`.) -/
theorem C6_missing_name_amended :
    ∀ (appId appSecret : Option String) (body : J) (env : Env),
      body.isObj = true →
      body.getKey "jsonrpc" = some (J.str "2.0") →
      body.getKey "method" = some (J.str "tools/call") →
      ((body.getKey "params").getD (J.obj [])).getKey "name" = none →
      invoke_mcp_tool appId appSecret body env =
        ({ status := 400,
           body := enhErrBody ((body.getKey "id").getD J.null) (-32602) "Missing tool name" },
         env) := by
  intro appId appSecret body env hobj hrpc hm hname
  match body, hobj with
  | J.obj kvs, _ =>
    simp only [invoke_mcp_tool, hrpc, hm, hname, pyTruthyOpt, Bool.not_false, if_pos]

/-- Witness for `C6_missing_name_amended`. -/
theorem C6_missing_name_amended_witness :
    ((((J.obj [("jsonrpc", J.str "2.0"), ("id", J.num 4), ("method", J.str "tools/call"),
        ("params", J.obj [])]).getKey "params").getD (J.obj [])).getKey "name") = none ∧
    invoke_mcp_tool (some "i") (some "s")
        (J.obj [("jsonrpc", J.str "2.0"), ("id", J.num 4), ("method", J.str "tools/call"),
          ("params", J.obj [])]) { resps := [] } =
      ({ status := 400,
         body := enhErrBody (((J.obj [("jsonrpc", J.str "2.0"), ("id", J.num 4),
           ("method", J.str "tools/call"), ("params", J.obj [])]).getKey "id").getD J.null)
           (-32602) "Missing tool name" },
       { resps := [] }) :=
  ⟨rfl, C6_missing_name_amended (some "i") (some "s") _ _ rfl rfl rfl rfl⟩

/-- Claim C9.  In the enhanced dispatcher, a `tools/call` of a registered
tool whose name does not start with `bitable_` performs no upstream
operation of any kind — the environment (response stream, request log,
token cache) comes back unchanged — and produces a success result with
`isError` false whose content merely echoes the tool name and the
supplied arguments. -/
theorem C9_legacy_tools_echo :
    ∀ (appId appSecret : Option String) (name d : String) (ps : J) (mid args : J)
      (env : Env),
      ENHANCED_TOOL_MAP.find? (fun e => e.1 == name) = some (name, d, ps) →
      strStartsWith name "bitable_" = false →
      invoke_mcp_tool appId appSecret (callBody mid name args) env =
        ({ status := 200,
           body := J.obj [("jsonrpc", J.str "2.0"),
             ("result", J.obj [("content", J.str (jsonDumps (J.obj
                 [("message", J.str ("Legacy tool " ++ name ++ " executed")),
                  ("arguments", args)]))),
               ("isError", J.bool false)]),
             ("id", mid)] }, env) := by
  intro appId appSecret name d ps mid args env hfind hpre
  have hne : name.isEmpty = false :=
    enhanced_names_nonempty _ (List.mem_of_find?_eq_some hfind)
  have hsome : (ENHANCED_TOOL_MAP.find? (fun e => e.1 == name)).isNone = false := by
    rw [hfind]; rfl
  simp [invoke_mcp_tool, callBody, J.getKey, List.lookup, pyTruthyOpt, J.truthy,
    hne, hsome, hpre]

/-- Witness for `C9_legacy_tools_echo`: `send_lark_message` is echoed
without any upstream operation. -/
theorem C9_legacy_tools_echo_witness :
    (strStartsWith "send_lark_message" "bitable_" = false) ∧
    invoke_mcp_tool (some "i") (some "s")
        (callBody (J.num 5) "send_lark_message"
          (J.obj [("chat_id", J.str "C"), ("message", J.str "hi")]))
        { resps := [] } =
      ({ status := 200,
         body := J.obj [("jsonrpc", J.str "2.0"),
           ("result", J.obj [("content", J.str (jsonDumps (J.obj
               [("message", J.str ("Legacy tool " ++ "send_lark_message" ++ " executed")),
                ("arguments", J.obj [("chat_id", J.str "C"), ("message", J.str "hi")])]))),
             ("isError", J.bool false)]),
           ("id", J.num 5)] },
       { resps := [] }) :=
  ⟨by decide, C9_legacy_tools_echo (some "i") (some "s") "send_lark_message" _ _
    (J.num 5) (J.obj [("chat_id", J.str "C"), ("message", J.str "hi")])
    { resps := [] } rfl (by decide)⟩

/-- Claim C10.  In the enhanced dispatcher, a `tools/call` of a
`bitable_`-prefixed registered tool always yields a JSON-RPC **result**
envelope (the envelope carries no top-level `error` member), whose
`isError` flag equals whether the executed value carries an `"error"`
key; and whenever the underlying operation raises
(missing required argument, auth failure, upstream HTTP failure —
`execute_run` returning `Except.error`), the executed value does carry
the `"error"` key, so `isError` is true. -/
theorem C10_bitable_errors_wrapped :
    ∀ (appId appSecret : Option String) (name d : String) (ps : J) (mid args : J)
      (env : Env),
      ENHANCED_TOOL_MAP.find? (fun e => e.1 == name) = some (name, d, ps) →
      strStartsWith name "bitable_" = true →
      (invoke_mcp_tool appId appSecret (callBody mid name args) env =
        ({ status := 200,
           body := J.obj [("jsonrpc", J.str "2.0"),
             ("result", J.obj [
               ("content", J.str (jsonDumps
                 (execute_bitable_operation appId appSecret name args env).1)),
               ("isError", J.bool (hasErrorKey
                 (execute_bitable_operation appId appSecret name args env).1))]),
             ("id", mid)] },
         (execute_bitable_operation appId appSecret name args env).2)) ∧
      (invoke_mcp_tool appId appSecret (callBody mid name args) env).1.body.getKey "error"
        = none ∧
      (∀ e env', execute_run appId appSecret name args env = (.error e, env') →
        hasErrorKey (execute_bitable_operation appId appSecret name args env).1 = true) := by
  intro appId appSecret name d ps mid args env hfind hpre
  have hne : name.isEmpty = false :=
    enhanced_names_nonempty _ (List.mem_of_find?_eq_some hfind)
  have hsome : (ENHANCED_TOOL_MAP.find? (fun e => e.1 == name)).isNone = false := by
    rw [hfind]; rfl
  refine ⟨?_, ?_, ?_⟩
  · simp [invoke_mcp_tool, callBody, J.getKey, List.lookup, pyTruthyOpt, J.truthy,
      hne, hsome, hpre]
  · simp [invoke_mcp_tool, callBody, J.getKey, List.lookup, pyTruthyOpt, J.truthy,
      hne, hsome, hpre, enhErrBody]
  · intro e env' hrun
    simp only [execute_bitable_operation, hrun, hasErrorKey]
    rfl

/-- Witness for `C10_bitable_errors_wrapped`: calling `bitable_get_record`
with an empty argument map raises the missing-`app_token` `ValueError`,
which is wrapped as an `"error"` value. -/
theorem C10_bitable_errors_wrapped_witness :
    (strStartsWith "bitable_get_record" "bitable_" = true) ∧
    hasErrorKey (execute_bitable_operation (some "i") (some "s") "bitable_get_record"
      (J.obj []) { resps := [] }).1 = true :=
  ⟨by decide,
    (C10_bitable_errors_wrapped (some "i") (some "s") "bitable_get_record" _ _
      (J.num 1) (J.obj []) { resps := [] } rfl (by decide)).2.2 _ _ rfl⟩

/-- Claim C1, amended.  In the src/app.py endpoints a single-record
operation reports success iff the transport status is **exactly 200**
(not any 2xx status) and the body's business code is 0; in the enhanced
client a single-record operation succeeds iff the transport status is 200
or 201 — the business code of the body is **not** checked there.  (Both
deviations from the original claim are exhibited at concrete inputs by
`C1_two_layer_success_counterexample`.) -/
theorem C1_two_layer_success_amended :
    (∀ (status : Nat) (api : J),
      (create_bitable_record_endpoint status api).success =
        (status == 200 && appPyCodeZero api)) ∧
    (∀ (rid : String) (status : Nat) (api : J),
      (update_bitable_record_endpoint rid status api).success =
        (status == 200 && appPyCodeZero api)) ∧
    (∀ (rid : String) (status : Nat) (api : J),
      (delete_bitable_record_endpoint rid status api).success =
        (status == 200 && appPyCodeZero api)) ∧
    (∀ (appId appSecret : Option String) (t app tab rec : String)
      (extra : List (String × J)) (r : LarkResp) (lg : List HttpReq),
      exOk (client_get_record appId appSecret app tab rec extra
          { resps := [r], cache := some t, log := lg }).1 =
        (r.status == 200 || r.status == 201)) ∧
    (∀ (appId appSecret : Option String) (t app tab : String) (fields : J)
      (extra : List (String × J)) (r : LarkResp) (lg : List HttpReq),
      exOk (client_create_record appId appSecret app tab fields extra
          { resps := [r], cache := some t, log := lg }).1 =
        (r.status == 200 || r.status == 201)) ∧
    (∀ (appId appSecret : Option String) (t app tab rec : String) (fields : J)
      (extra : List (String × J)) (r : LarkResp) (lg : List HttpReq),
      exOk (client_update_record appId appSecret app tab rec fields extra
          { resps := [r], cache := some t, log := lg }).1 =
        (r.status == 200 || r.status == 201)) ∧
    (∀ (appId appSecret : Option String) (t app tab rec : String)
      (r : LarkResp) (lg : List HttpReq),
      exOk (client_delete_record appId appSecret app tab rec
          { resps := [r], cache := some t, log := lg }).1 =
        (r.status == 200 || r.status == 201)) := by
  refine ⟨?_, ?_, ?_, ?_, ?_, ?_, ?_⟩
  · intro status api
    simp only [create_bitable_record_endpoint]
    split <;> rename_i h <;> simp_all
  · intro rid status api
    simp only [update_bitable_record_endpoint]
    split <;> rename_i h <;> simp_all
  · intro rid status api
    simp only [delete_bitable_record_endpoint]
    split <;> rename_i h <;> simp_all
  all_goals
    intros
    simp [client_get_record, client_create_record, client_update_record,
      client_delete_record, make_request, get_tenant_access_token, sendReq, exOk]
    rename_i r _
    by_cases h200 : r.status = 200
    · simp [h200]
    · by_cases h201 : r.status = 201 <;> simp [h200, h201]

/-- Claim C1, counterexample to the original statement.  (a) The app.py
update endpoint reports **failure** for a 2xx transport status (201) with
business code 0; (b) the enhanced client's `get_record` reports
**success** for a response with transport status 200 and non-zero
business code 5 — the business code is never examined. -/
theorem C1_two_layer_success_counterexample :
    (update_bitable_record_endpoint "R" 201 (J.obj [("code", J.num 0)])).success = false ∧
    exOk (client_get_record (some "i") (some "s") "A" "T" "R" []
      { resps := [⟨200, J.obj [("code", J.num 5), ("msg", J.str "err")], "boom"⟩],
        cache := some "tok" }).1 = true :=
  ⟨rfl, rfl⟩

/-- Claim C2.  `get_tenant_access_token` fails when the credentials are
absent (empty or unset) **without issuing any request and without
touching the cache**; it fails when the remote auth call does not return
transport 200 with business code 0, leaving the cache empty; on the first
success it caches the returned token value; and any call that finds the
cache populated returns the cached value with no outbound request (the
environment is unchanged).  The last two conjuncts state the same cache
behaviour for `LarkClient.get_access_token` of src/app.py, where the
absence check instead lives at client construction (`LarkClient` is only
built when both credentials are set, src/app.py:635). -/
theorem C2_token_cache :
    (∀ (appId appSecret : Option String) (env : Env), env.cache = none →
      (credMissing appId || credMissing appSecret) = true →
      get_tenant_access_token appId appSecret env =
        (.error (.valueError "App ID and App Secret required for token generation"), env)) ∧
    (∀ (appId appSecret : Option String) (env : Env) (r : LarkResp) (rest : List LarkResp),
      env.cache = none →
      (credMissing appId || credMissing appSecret) = false →
      env.resps = r :: rest →
      ¬(r.status = 200 ∧ r.body.getKey "code" = some (J.num 0)) →
      (∃ msg, (get_tenant_access_token appId appSecret env).1 =
        .error (.genericError msg)) ∧
      (get_tenant_access_token appId appSecret env).2.cache = none ∧
      (get_tenant_access_token appId appSecret env).2.log =
        env.log ++ [authTokenReq appId appSecret]) ∧
    (∀ (appId appSecret : Option String) (env : Env) (r : LarkResp) (rest : List LarkResp)
      (tok : J),
      env.cache = none →
      (credMissing appId || credMissing appSecret) = false →
      env.resps = r :: rest →
      r.status = 200 → r.body.getKey "code" = some (J.num 0) →
      r.body.getKey "tenant_access_token" = some tok →
      get_tenant_access_token appId appSecret env =
        (.ok (pyStr tok),
         { resps := rest, cache := some (pyStr tok),
           log := env.log ++ [authTokenReq appId appSecret] })) ∧
    (∀ (appId appSecret : Option String) (env : Env) (t : String), env.cache = some t →
      get_tenant_access_token appId appSecret env = (.ok t, env)) ∧
    (∀ (cache : Option String) (resp : LarkResp) (t : String), cache = some t →
      app_get_access_token cache resp = (.ok t, cache, 0)) ∧
    (∀ (cache : Option String) (resp : LarkResp), cache = none →
      ¬(resp.status = 200 ∧ resp.body.getKey "code" = some (J.num 0)) →
      (app_get_access_token cache resp).2.1 = none ∧
      exOk (app_get_access_token cache resp).1 = false ∧
      (app_get_access_token cache resp).2.2 = 1) := by
  refine ⟨?_, ?_, ?_, ?_, ?_, ?_⟩
  · intro appId appSecret env hc hcred
    simp [get_tenant_access_token, hc, hcred]
  · intro appId appSecret env r rest hc hcred hr hbad
    simp only [get_tenant_access_token, hc, hcred, Bool.false_eq_true, if_false,
      sendReq, hr]
    split
    · rename_i hst hcode
      exact absurd ⟨hst, hcode⟩ hbad
    · simp [authTokenReq]
  · intro appId appSecret env r rest tok hc hcred hr h200 hcode htok
    simp [get_tenant_access_token, hc, hcred, sendReq, hr, h200, hcode, htok, authTokenReq]
  · intro appId appSecret env t hc
    simp [get_tenant_access_token, hc]
  · intro cache resp t hc
    simp [app_get_access_token, hc]
  · intro cache resp hc hbad
    simp only [app_get_access_token, hc]
    split
    · rename_i hst hcode
      exact absurd ⟨hst, hcode⟩ hbad
    · simp [exOk]
    · simp [exOk]

/-- Witness for `C2_token_cache`: each conjunct applied at a concrete
input — absent credentials, a 500 auth failure, a successful exchange
caching token `T9`, a cache hit, and the app.py variants. -/
theorem C2_token_cache_witness :
    (get_tenant_access_token none (some "s") { resps := [] } =
      (.error (.valueError "App ID and App Secret required for token generation"),
       ({ resps := [] } : Env))) ∧
    ((get_tenant_access_token (some "i") (some "s")
        { resps := [⟨500, J.obj [], "srv"⟩] }).2.cache = none) ∧
    (get_tenant_access_token (some "i") (some "s")
        { resps := [⟨200, J.obj [("code", J.num 0),
          ("tenant_access_token", J.str "T9")], ""⟩] } =
      (.ok (pyStr (J.str "T9")),
       { resps := [], cache := some (pyStr (J.str "T9")),
         log := [] ++ [authTokenReq (some "i") (some "s")] })) ∧
    (get_tenant_access_token (some "i") (some "s")
        { resps := [], cache := some "T9" } =
      (.ok "T9", { resps := [], cache := some "T9" })) ∧
    (app_get_access_token (some "T9") ⟨500, J.obj [], ""⟩ = (.ok "T9", some "T9", 0)) ∧
    (exOk (app_get_access_token none ⟨500, J.obj [], ""⟩).1 = false) :=
  ⟨C2_token_cache.1 none (some "s") { resps := [] } rfl rfl,
   (C2_token_cache.2.1 (some "i") (some "s") { resps := [⟨500, J.obj [], "srv"⟩] }
     ⟨500, J.obj [], "srv"⟩ [] rfl rfl rfl
     (fun h => absurd h.1 (by decide))).2.1,
   C2_token_cache.2.2.1 (some "i") (some "s")
     { resps := [⟨200, J.obj [("code", J.num 0), ("tenant_access_token", J.str "T9")], ""⟩] }
     ⟨200, J.obj [("code", J.num 0), ("tenant_access_token", J.str "T9")], ""⟩ []
     (J.str "T9") rfl rfl rfl rfl rfl rfl,
   C2_token_cache.2.2.2.1 (some "i") (some "s")
     { resps := [], cache := some "T9" } "T9" rfl,
   C2_token_cache.2.2.2.2.1 (some "T9") ⟨500, J.obj [], ""⟩ "T9" rfl,
   (C2_token_cache.2.2.2.2.2 none ⟨500, J.obj [], ""⟩ rfl
     (fun h => absurd h.1 (by decide))).2.1⟩

/-- Claim C7 (`getTableSchema`): the operation is composed of exactly two
upstream calls, but when the second (field-list) call returns HTTP 200
with a non-zero business code the composite silently returns a **success**
payload (`code 0, msg success`) with an empty field list instead of a
distinct partial-failure error — evaluated here at that failing input
(table call succeeds; field call answers 200 with business code
1254000). -/
theorem C7_get_table_schema_partial_failure :
    (client_get_table_schema (some "id") (some "secret") "A" "T"
        { resps := [
            ⟨200, J.obj [("code", J.num 0),
              ("data", J.obj [("table", J.obj [("name", J.str "tbl")])])], ""⟩,
            ⟨200, J.obj [("code", J.num 1254000), ("msg", J.str "FieldNameNotFound")], ""⟩],
          cache := some "tok" }).1 =
      Except.ok (J.obj [("code", J.num 0), ("msg", J.str "success"),
        ("data", J.obj [("table", J.obj [("name", J.str "tbl")]),
          ("fields", J.arr [])])]) ∧
    (client_get_table_schema (some "id") (some "secret") "A" "T"
        { resps := [
            ⟨200, J.obj [("code", J.num 0),
              ("data", J.obj [("table", J.obj [("name", J.str "tbl")])])], ""⟩,
            ⟨200, J.obj [("code", J.num 1254000), ("msg", J.str "FieldNameNotFound")], ""⟩],
          cache := some "tok" }).2.log.length = 2 :=
  ⟨rfl, rfl⟩

/-- Claim C8 (single-flight): with the unguarded cache of
`LarkClient.get_access_token`, the interleaving in which both tasks test
the empty cache before either stores a token issues **two** outbound auth
requests, refuting the claimed single-flight property; only the
non-overlapping schedule (A runs to completion before B tests) issues
one. -/
theorem C8_token_cache_race :
    (raceRun "tok" [true, false, true, false]).authRequests = 2 ∧
    (raceRun "tok" [true, false, true, false]).pcA = .done "tok" ∧
    (raceRun "tok" [true, false, true, false]).pcB = .done "tok" ∧
    (raceRun "tok" [true, true, false, false]).authRequests = 1 :=
  ⟨rfl, rfl, rfl, rfl⟩

end LarkMcp

